import Mathlib

/-!
Shallow embedding of the Scheduled Update & Power-Mode Engine of the
Microcontroller-UV-Grapher firmware (src/src/main.cpp), together with
theorems that settle the specification claims about it.

Modelling conventions:
* Calendar time (`struct tm` plus `mktime`) is modelled linearly: an epoch
  is `((day*24 + hour)*60 + min)*60 + sec` seconds.  `mktime` accepts
  out-of-range `hour`/`min` fields and normalizes them, which under this
  linear model is ordinary arithmetic (DST and leap seconds are not
  modelled).
* `float` fields (latitude, longitude, UV intensities) are only copied,
  compared with 0 and overwritten by the engine, never computed with, so
  they are modelled as `Int`.
* The fixed-size `char` buffers in RTC memory (`char[16]`, `char[32]`)
  hold at most 15 resp. 31 characters; `strncpy` into them is modelled by
  `strTrunc`.
* External collaborators (WiFi, HTTP, JSON decoder, NTP clock) are
  modelled by environment records whose fields drive exactly the branches
  the C++ code takes on their results.
-/

set_option maxHeartbeats 2000000

namespace UVGrapher

/-! ## Configuration constants (src/src/main.cpp lines 14-87) -/

def HOURLY_FORECAST_COUNT : Nat := 6

def REFRESH_TARGET_MINUTE : Nat := 5

def UPDATES_PER_HOUR_NORMAL_MODE : Nat := 4

def UPDATES_PER_HOUR_LPM : Nat := 1

def DEBOUNCE_TIME_MS : Nat := 50

def LONG_PRESS_TIME_MS : Nat := 1000

def RTC_MAGIC_VALUE : Nat := 0xDEADBEEF

/-- Constant `MY_LATITUDE` from secrets.h, modelled as a scaled integer (the engine
only copies this value, never computes with it). -/
def MY_LATITUDE : Int := 252697

/-- Constant `MY_LONGITUDE` from secrets.h, modelled as a scaled integer. -/
def MY_LONGITUDE : Int := 553095

/-! ## Calendar time model -/

/-- A normalized `struct tm` restricted to the fields the scheduler reads:
day index since an arbitrary origin, hour of day, minute, second. -/
structure Tm where
  day  : Nat
  hour : Nat
  min  : Nat
  sec  : Nat
deriving DecidableEq, Repr

/-- Model of `mktime` on a (possibly denormalized) calendar time: the linear epoch.
`hour` and `min` may exceed their calendar ranges, exactly as the C++
code hands denormalized fields to `mktime` for normalization. -/
def mkEpoch (day hour min sec : Nat) : Nat :=
  ((day * 24 + hour) * 60 + min) * 60 + sec

/-- Epoch of a normalized time. -/
def Tm.epoch (t : Tm) : Nat := mkEpoch t.day t.hour t.min t.sec

/-- Minute-of-hour of an epoch (what `localtime(e).tm_min` yields in the
linear model). -/
def minuteOfHour (e : Nat) : Nat := (e / 60) % 60

/-! ## Schedule calculator (`calculateNextUpdateTimeDetails`, lines 245-394) -/

structure NextUpdateTimeDetails where
  sleepDurationUs : Nat
  nextUpdateEpoch : Nat
  updateNow       : Bool
deriving DecidableEq, Repr

/-- Lines 253-258: invalid `updatesPerHour` (0 or above 60) is replaced by 1. -/
def clampUpdatesPerHour (u : Nat) : Nat :=
  if u = 0 ∨ u > 60 then 1 else u

/-- Lines 259-264: invalid `targetStartMinute` (60 or above) is replaced by 0. -/
def clampTargetStartMinute (m : Nat) : Nat :=
  if m ≥ 60 then 0 else m

/-- Body of the candidate loop at lines 271-291: one candidate epoch is
compared against `now`; a strictly future candidate lowers the current
minimum (`0` is the "none found" sentinel), a just-passed candidate in a
Normal-mode check sets the `updateNow` flag. -/
def scanStep (now : Nat) (isNormal : Bool) (iv : Nat) (cand : Nat)
    (st : Nat × Bool) : Nat × Bool :=
  if now < cand then
    if st.1 = 0 ∨ cand < st.1 then (cand, st.2) else st
  else if isNormal = true ∧ (cand = now ∨ (now - cand < iv * 60 ∧ now - cand < 30)) then
    (st.1, true)
  else st

/-- The inner `for i` loop at lines 271-291, folded over the candidate
epochs produced by `c`. -/
def scanFold (now : Nat) (isNormal : Bool) (iv : Nat) (c : Nat → Nat)
    (l : List Nat) (st : Nat × Bool) : Nat × Bool :=
  l.foldl (fun st i => scanStep now isNormal iv (c i) st) st

/-- Candidate epoch for hour offset `off` and slot index `i`
(lines 272-278: date of `t`, hour `t.hour + off`, minute
`tm + i * iv`, second 0, normalized by `mktime`). -/
def candEpoch (t : Tm) (tm iv : Nat) (off i : Nat) : Nat :=
  mkEpoch t.day (t.hour + off) (tm + i * iv) 0

/-- One hour-offset pass of the search loop. -/
def scanHour (t : Tm) (now tm iv uph : Nat) (off : Nat) (isNormal : Bool)
    (st : Nat × Bool) : Nat × Bool :=
  scanFold now isNormal iv (candEpoch t tm iv off) (List.range uph) st

/-- The full 2-hour search of lines 270-301 including the two
`break` conditions at lines 293-300. -/
def scanSlots (t : Tm) (now tm iv uph : Nat) (isNormal : Bool) : Nat × Bool :=
  let s0 := scanHour t now tm iv uph 0 isNormal (0, false)
  if s0.1 ≠ 0 ∧ s0.2 = false then s0
  else if s0.1 ≠ 0 ∧ s0.2 = true ∧ now < s0.1 then s0
  else scanHour t now tm iv uph 1 isNormal s0

/-- Inner loop of the re-search block at lines 315-330 (only reached when
an `updateNow` slot was the last one in the search window). -/
def reScanHour (t : Tm) (now tm iv uph hour2 : Nat) (off : Nat)
    (st : Nat × Bool) : Nat × Bool :=
  (List.range uph).foldl
    (fun st i =>
      let cand := mkEpoch t.day (hour2 + off) (tm + i * iv) 0
      if now < cand then
        if st.1 = 0 ∨ cand < st.1 ∨ (st.1 ≤ now ∧ st.1 < cand) then (cand, true) else st
      else st) st

/-- Embedding of `calculateNextUpdateTimeDetails` (lines 245-394), as a pure function
of the current calendar time, the two schedule parameters and the
Normal-mode flag. -/
def calculateNextUpdateTimeDetails (t : Tm) (updatesPerHour0 targetStartMinute0 : Nat)
    (isNormalModeCheck : Bool) : NextUpdateTimeDetails :=
  let nowEpoch := t.epoch
  let uph := clampUpdatesPerHour updatesPerHour0
  let tm := clampTargetStartMinute targetStartMinute0
  let iv := 60 / uph
  let s := scanSlots t nowEpoch tm iv uph isNormalModeCheck
  let found := s.1
  let updNow := s.2
  if updNow = true ∧ isNormalModeCheck = true then
    -- lines 303-340: updateNow for a Normal-mode check
    let f2 :=
      if found = 0 ∨ found ≤ nowEpoch then
        -- lines 308-338: the updateNow slot was the last in the window
        let hour2 := ((nowEpoch + iv * 60) / 3600) % 24
        let r0 := reScanHour t nowEpoch tm iv uph hour2 0 (found, false)
        let r := if r0.2 = true ∧ nowEpoch < r0.1 then r0
                 else reScanHour t nowEpoch tm iv uph hour2 1 r0
        if r.2 = false ∨ r.1 ≤ nowEpoch then mkEpoch t.day (t.hour + 1) tm 0 else r.1
      else found
    { sleepDurationUs := 0, nextUpdateEpoch := f2, updateNow := true }
  else
    -- lines 341-359
    let nextSleep :=
      if found ≠ 0 then (found, (found - nowEpoch) * 1000000)
      else
        let fb1 := mkEpoch t.day (t.hour + 1) tm 0
        let fb := if fb1 ≤ nowEpoch then mkEpoch t.day (t.hour + 2) tm 0 else fb1
        (fb, (fb - nowEpoch) * 1000000)
    -- lines 362-371: zero-sleep sanity check
    let nextSleep2 :=
      if nextSleep.2 = 0 then
        let sA := iv * 60 * 1000000
        let sB := if sA = 0 ∧ uph > 0 then 60 * 1000000
                  else if sA = 0 then 60 * 60 * 1000000 else sA
        (nowEpoch + sB / 1000000, sB)
      else nextSleep
    -- lines 373-382: cap the low-power-mode sleep at 3 hours
    let maxUs := 3 * 60 * 60 * 1000000
    if isNormalModeCheck = false ∧ maxUs < nextSleep2.2 then
      let sC0 := (if iv > 0 then iv else 60) * 60 * 1000000
      let sC := if sC0 = 0 ∨ maxUs < sC0 then 60 * 60 * 1000000 else sC0
      { sleepDurationUs := sC, nextUpdateEpoch := nowEpoch + sC / 1000000, updateNow := updNow }
    else
      { sleepDurationUs := nextSleep2.2, nextUpdateEpoch := nextSleep2.1, updateNow := updNow }

/-! ## Persistent state model (globals, RTC memory, EEPROM; lines 37-91) -/

/-- Effect of `strncpy(dst, src, n); dst[n] = 0` into an `n+1`-byte buffer keeps at
most the first `n` characters of the source string. -/
def strTrunc (s : String) (n : Nat) : String :=
  if s.length ≤ n then s else ⟨s.data.take n⟩

/-- The engine state: the working globals, the `RTC_DATA_ATTR` region that
survives deep sleep, and the one-byte EEPROM region that survives power
loss.  `eepromWriteCount` counts the `EEPROM.write`/`commit` requests the
firmware issues for the flag byte (the write-wear effect of the store). -/
structure DeviceState where
  -- working globals (lines 39-57)
  lastUpdateTimeStr   : String
  deviceLatitude      : Int
  deviceLongitude     : Int
  locationDisplayStr  : String
  useGpsFromSecrets   : Bool
  hourlyUV            : List Int
  forecastHours       : List Int
  dataJustFetched     : Bool
  forceDisplayUpdate  : Bool
  isLowPowerModeActive : Bool
  -- RTC memory (lines 76-84)
  rtcMagicCookie      : Nat
  rtcHasValidData     : Bool
  rtcHourlyUV         : List Int
  rtcForecastHours    : List Int
  rtcLastUpdateTimeStr : String
  rtcLocationDisplayStr : String
  rtcDeviceLatitude   : Int
  rtcDeviceLongitude  : Int
  rtcUseGpsFromSecretsGlobal : Bool
  -- EEPROM (one byte at LPM_FLAG_EEPROM_ADDR)
  eepromLpmFlag       : Nat
  eepromWriteCount    : Nat
deriving DecidableEq, Repr

/-- Embedding of `initializeForecastData` (lines 420-431): reset the six working slots
to the `-1` placeholders, and the RTC copies too when `updateRTC`. -/
def initializeForecastData (s : DeviceState) (updateRTC : Bool) : DeviceState :=
  let s := { s with hourlyUV := List.replicate HOURLY_FORECAST_COUNT (-1),
                    forecastHours := List.replicate HOURLY_FORECAST_COUNT (-1) }
  if updateRTC then
    { s with rtcHourlyUV := List.replicate HOURLY_FORECAST_COUNT (-1),
             rtcForecastHours := List.replicate HOURLY_FORECAST_COUNT (-1) }
  else s

/-- Embedding of `savePersistentState` (lines 139-173): unconditionally write the LPM
flag byte to EEPROM and commit, refresh the RTC magic cookie and GPS
preference, and copy the forecast block to RTC only when it is valid. -/
def savePersistentState (s : DeviceState) : DeviceState :=
  let s := { s with eepromLpmFlag := if s.isLowPowerModeActive then 1 else 0,
                    eepromWriteCount := s.eepromWriteCount + 1 }
  let s := { s with rtcMagicCookie := RTC_MAGIC_VALUE,
                    rtcUseGpsFromSecretsGlobal := s.useGpsFromSecrets }
  if s.rtcHasValidData then
    { s with rtcHourlyUV := s.hourlyUV,
             rtcForecastHours := s.forecastHours,
             rtcLastUpdateTimeStr := strTrunc s.lastUpdateTimeStr 15,
             rtcLocationDisplayStr := strTrunc s.locationDisplayStr 31,
             rtcDeviceLatitude := s.deviceLatitude,
             rtcDeviceLongitude := s.deviceLongitude }
  else s

/-- Embedding of `loadPersistentState` (lines 175-241). -/
def loadPersistentState (s : DeviceState) : DeviceState :=
  -- lines 180-193: EEPROM flag
  let s :=
    if s.eepromLpmFlag = 0 ∨ s.eepromLpmFlag = 1 then
      { s with isLowPowerModeActive := s.eepromLpmFlag = 1 }
    else
      { s with isLowPowerModeActive := false, eepromLpmFlag := 0,
               eepromWriteCount := s.eepromWriteCount + 1 }
  if s.rtcMagicCookie = RTC_MAGIC_VALUE then
    let s := { s with useGpsFromSecrets := s.rtcUseGpsFromSecretsGlobal }
    if s.rtcHasValidData then
      -- lines 197-209
      { s with hourlyUV := s.rtcHourlyUV,
               forecastHours := s.rtcForecastHours,
               lastUpdateTimeStr := s.rtcLastUpdateTimeStr,
               locationDisplayStr := s.rtcLocationDisplayStr,
               deviceLatitude := s.rtcDeviceLatitude,
               deviceLongitude := s.rtcDeviceLongitude,
               dataJustFetched := true }
    else
      -- lines 210-215
      initializeForecastData s false
  else
    -- lines 216-234: magic cookie mismatch
    let s := { s with useGpsFromSecrets := false }
    let s := initializeForecastData s true
    { s with rtcHasValidData := false,
             rtcLastUpdateTimeStr := "Never",
             lastUpdateTimeStr := "Never",
             rtcLocationDisplayStr := "Initializing...",
             locationDisplayStr := "Initializing...",
             rtcDeviceLatitude := MY_LATITUDE,
             rtcDeviceLongitude := MY_LONGITUDE,
             deviceLatitude := MY_LATITUDE,
             deviceLongitude := MY_LONGITUDE,
             rtcMagicCookie := RTC_MAGIC_VALUE }

/-- The persistence effect of `enterDeepSleep` (lines 397-408): it saves
the persistent state before suspending; the hardware suspension itself has
no further effect on the modelled state. -/
def enterDeepSleepPersist (s : DeviceState) : DeviceState :=
  savePersistentState s

/-! ## UV fetch (`fetchUVData`, lines 1285-1451) -/

/-- One entry of the API's `hourly.time` array: `okLen` is
`api_time_str.length() >= 13` and `hour` is
`api_time_str.substring(11,13).toInt()` (0 for entries too short to carry
an hour). -/
structure TimeEntry where
  okLen : Bool
  hour  : Nat
deriving DecidableEq, Repr

instance : Inhabited TimeEntry := ⟨⟨false, 0⟩⟩

/-- Outcome of the external collaborators during one `fetchUVData` call. -/
structure FetchEnv where
  wifiConnected  : Bool          -- WiFi.status() == WL_CONNECTED at entry
  httpCode       : Int           -- http.GET() result; 200 = HTTP_CODE_OK
  decodeOk       : Bool          -- deserializeJson succeeded
  hourlyPresent  : Bool          -- hourly, hourly.time, hourly.uv_index all non-null
  times          : List TimeEntry
  uvs            : List (Option Int)  -- null entries are `none`
  timeAvail      : Bool          -- getLocalTime for forecast matching succeeded
  currentHour    : Nat           -- timeinfo.tm_hour at the matching step
  timeAvail2     : Bool          -- getLocalTime for the update label succeeded
  nowH           : Nat           -- label hour
  nowM           : Nat           -- label minute
  tzAbbr         : Option String -- doc["timezone_abbreviation"]
  wifiAtFailCheck : Bool         -- WiFi.status() re-check at line 1439
deriving Repr

/-- Two-digit decimal rendering used by `%02d`. -/
def pad2 (n : Nat) : String :=
  if n < 10 then "0" ++ toString n else toString n

/-- Lines 1363-1373: first index of the hourly series whose parseable
hour-of-day is at or after the current local hour. -/
def findStartIndexAux (cur : Nat) : List TimeEntry → Nat → Option Nat
  | [], _ => none
  | e :: rest, i =>
      if e.okLen = true ∧ cur ≤ e.hour then some i else findStartIndexAux cur rest (i + 1)

def findStartIndex (ts : List TimeEntry) (cur : Nat) : Option Nat :=
  findStartIndexAux cur ts 0

/-- Lines 1416-1435: refresh `lastUpdateTimeStr` (and its RTC copy) from
the current clock and the API's timezone abbreviation, regardless of parse
success; the 16-byte buffer truncates to 15 characters. -/
def fetchLabel (env : FetchEnv) (s : DeviceState) : DeviceState :=
  if env.timeAvail2 then
    let tz := if env.decodeOk then env.tzAbbr else none
    let raw :=
      match tz with
      | some a =>
          if 0 < a.length ∧ a.length < 5 then pad2 env.nowH ++ ":" ++ pad2 env.nowM ++ " " ++ a
          else pad2 env.nowH ++ ":" ++ pad2 env.nowM
      | none => pad2 env.nowH ++ ":" ++ pad2 env.nowM
    let lbl := strTrunc raw 15
    { s with lastUpdateTimeStr := lbl, rtcLastUpdateTimeStr := lbl }
  else
    { s with lastUpdateTimeStr := "Time Err", rtcLastUpdateTimeStr := "Time Err" }

/-- Lines 1376-1392: populate the six slots from the API series starting
at `k`; missing tail entries become `-1`, null UV values become 0, and
negative UV values are clamped to 0. -/
def populateUV (env : FetchEnv) (k : Nat) : List Int :=
  (List.range HOURLY_FORECAST_COUNT).map (fun i =>
    if k + i < env.uvs.length ∧ k + i < env.times.length then
      let v := (env.uvs.getD (k + i) none).getD 0
      if v < 0 then 0 else v
    else -1)

def populateHours (env : FetchEnv) (k : Nat) : List Int :=
  (List.range HOURLY_FORECAST_COUNT).map (fun i =>
    if k + i < env.uvs.length ∧ k + i < env.times.length then
      ((env.times.getD (k + i) default).hour : Int)
    else -1)

/-- Embedding of `fetchUVData` (lines 1285-1451).  Returns the new state and the
`parseSuccess` flag. -/
def fetchUVData (env : FetchEnv) (s : DeviceState) : DeviceState × Bool :=
  if env.wifiConnected = false then
    -- lines 1286-1298
    let s := initializeForecastData s true
    ({ s with lastUpdateTimeStr := "Offline",
              rtcLastUpdateTimeStr := "Offline",
              rtcHasValidData := false,
              dataJustFetched := true }, false)
  else if env.httpCode = 200 then
    let body :=
      if env.decodeOk = false then
        -- lines 1328-1333
        let s := initializeForecastData s true
        ({ s with rtcHasValidData := false }, false)
      else if env.hourlyPresent then
        if env.timeAvail = false then
          -- lines 1353-1358
          let s := initializeForecastData s true
          ({ s with rtcHasValidData := false }, false)
        else
          match findStartIndex env.times env.currentHour with
          | some k =>
              -- lines 1375-1398
              let newUV := populateUV env k
              let newH := populateHours env k
              ({ s with hourlyUV := newUV, rtcHourlyUV := newUV,
                        forecastHours := newH, rtcForecastHours := newH,
                        rtcHasValidData := true }, true)
          | none =>
              -- lines 1399-1405
              let s := initializeForecastData s true
              ({ s with rtcHasValidData := false }, false)
      else
        -- lines 1407-1413
        let s := initializeForecastData s true
        ({ s with rtcHasValidData := false }, false)
    ({ fetchLabel env body.1 with dataJustFetched := true }, body.2)
  else
    -- lines 1437-1447: HTTP request failed
    let s := initializeForecastData s true
    let s := { s with rtcHasValidData := false }
    let s :=
      if env.wifiAtFailCheck = false then
        { s with lastUpdateTimeStr := "Offline",
                 rtcLastUpdateTimeStr := strTrunc "Offline" 15 }
      else
        let lbl := "API Err " ++ toString env.httpCode
        { s with lastUpdateTimeStr := lbl,
                 rtcLastUpdateTimeStr := strTrunc lbl 15 }
    ({ s with dataJustFetched := true }, false)

/-! ## IP geolocation (`fetchLocationFromIp`, lines 1208-1283) -/

structure IpGeoEnv where
  httpCode      : Int
  decodeOk      : Bool
  statusSuccess : Bool           -- doc["status"] == "success"
  lat           : Int
  lon           : Int
  city          : Option String
deriving Repr

/-- Embedding of `fetchLocationFromIp` given that WiFi is connected (the sequence only
calls it in that branch; the no-WiFi early return is kept for fidelity). -/
def fetchLocationFromIp (wifi : Bool) (env : IpGeoEnv) (s : DeviceState) :
    DeviceState × Bool :=
  if wifi = false then
    ({ s with locationDisplayStr := "IP (NoNet)" }, false)
  else if env.httpCode = 200 then
    if env.decodeOk = false then
      ({ s with locationDisplayStr := "IP (JSON Err)" }, false)
    else if env.statusSuccess then
      let lbl := match env.city with
                 | some c => "IP: " ++ c
                 | none => "IP: Unknown"
      ({ s with deviceLatitude := env.lat, deviceLongitude := env.lon,
                locationDisplayStr := lbl,
                rtcDeviceLatitude := env.lat, rtcDeviceLongitude := env.lon,
                rtcLocationDisplayStr := strTrunc lbl 31 }, true)
    else
      ({ s with locationDisplayStr := "IP (API Err)" }, false)
  else
    ({ s with locationDisplayStr := "IP (HTTP Err " ++ toString env.httpCode ++ ")" }, false)

/-! ## Fetch sequence (`performDataFetchSequence`, lines 434-479) -/

structure SeqEnv where
  wifiAfterConnect : Bool        -- WiFi.status() read at line 438, after connectToWiFi
  wifiAtIpGeo      : Bool        -- WiFi.status() re-read at line 1209, inside fetchLocationFromIp
  ipGeo            : IpGeoEnv
  fetch            : FetchEnv    -- fetchUVData re-reads WiFi.status() itself (line 1286)
  wifiAtSaveCheck  : Bool        -- WiFi.status() re-read at line 476, guarding the save
deriving Repr

/-- Body of `performDataFetchSequence` up to line 475 (location
resolution, UV fetch or offline fallback, display flag), before the
line-476 save guard. -/
def fetchCycleBody (env : SeqEnv) (s : DeviceState) : DeviceState :=
  let s :=
    if env.wifiAfterConnect then
      let s :=
        if s.useGpsFromSecrets then
          { s with deviceLatitude := MY_LATITUDE, deviceLongitude := MY_LONGITUDE,
                   locationDisplayStr := "Secrets GPS" }
        else
          let r := fetchLocationFromIp env.wifiAtIpGeo env.ipGeo s
          if r.2 = false then
            -- lines 446-451: fall back to secrets and persist that choice
            { r.1 with useGpsFromSecrets := true,
                       deviceLatitude := MY_LATITUDE, deviceLongitude := MY_LONGITUDE,
                       locationDisplayStr := "IP Fail>Secrets" }
          else r.1
      (fetchUVData env.fetch s).1
    else
      -- lines 463-474: WiFi not connected
      let s := { s with locationDisplayStr := "Offline>Secrets",
                        useGpsFromSecrets := true,
                        deviceLatitude := MY_LATITUDE, deviceLongitude := MY_LONGITUDE }
      let s := initializeForecastData s true
      { s with lastUpdateTimeStr := "Offline",
               rtcLastUpdateTimeStr := strTrunc "Offline" 15,
               rtcHasValidData := false,
               dataJustFetched := true }
  { s with forceDisplayUpdate := true }

/-- Embedding of `performDataFetchSequence` (lines 434-479).  The C++
reads `WiFi.status()` afresh at line 438, at line 1209 (inside
`fetchLocationFromIp`), at line 1286 (inside `fetchUVData`) and at
line 476 (the save guard); each read is an independent environment
field, so WiFi may drop at any point of the sequence.  In particular,
when WiFi drops after a successful IP geolocation (so
`useGpsFromSecrets` stays false) and before line 476, the final guard
fails and no `savePersistentState` call happens that cycle. -/
def performDataFetchSequence (env : SeqEnv) (s : DeviceState) : DeviceState :=
  let s := fetchCycleBody env s
  -- lines 476-478: save only if WiFi is still up now, or secrets GPS is in use
  if env.wifiAtSaveCheck = true ∨ s.useGpsFromSecrets = true then
    savePersistentState s
  else s

/-! ## Button input classifier (`handle_buttons`, lines 747-849) -/

/-- Per-button debounce/long-press state (lines 62-70). -/
structure ButtonState where
  lastPressTime  : Nat
  lastStateHigh  : Bool
  pressStartTime : Nat
  isHeld         : Bool
deriving DecidableEq, Repr

inductive ButtonEventKind where
  | short
  | long
deriving DecidableEq, Repr

/-- One `handle_buttons` pass for one button, given the tick time and the
sampled input level (`levelHigh = true` means the pin reads HIGH, i.e. not
pressed).  Returns the next state and the classification event emitted on
this tick, if any.  Both physical buttons run this same branch structure;
the consumer-side effects (overlay toggle, LPM toggle) differ. -/
def buttonStep (bs : ButtonState) (now : Nat) (levelHigh : Bool) :
    ButtonState × Option ButtonEventKind :=
  if levelHigh = false ∧ bs.lastStateHigh = true ∧ DEBOUNCE_TIME_MS < now - bs.lastPressTime then
    -- debounced falling edge (lines 752-754)
    ({ bs with pressStartTime := now, isHeld := false, lastStateHigh := levelHigh }, none)
  else if levelHigh = false ∧ bs.isHeld = false then
    -- button held (lines 755-773)
    if LONG_PRESS_TIME_MS < now - bs.pressStartTime then
      ({ bs with isHeld := true, lastPressTime := now, lastStateHigh := levelHigh }, some .long)
    else
      ({ bs with lastStateHigh := levelHigh }, none)
  else if levelHigh = true ∧ bs.lastStateHigh = false ∧ DEBOUNCE_TIME_MS < now - bs.lastPressTime then
    -- debounced release (lines 774-785)
    if bs.isHeld = false then
      ({ bs with lastPressTime := now, isHeld := false, lastStateHigh := levelHigh }, some .short)
    else
      ({ bs with lastPressTime := now, isHeld := false, lastStateHigh := levelHigh }, none)
  else
    ({ bs with lastStateHigh := levelHigh }, none)

/-- Run the classifier over a list of `(tickTime, levelHigh)` samples,
collecting the emitted events in order. -/
def runButton (bs : ButtonState) (ticks : List (Nat × Bool)) :
    ButtonState × List ButtonEventKind :=
  ticks.foldl
    (fun acc t =>
      let r := buttonStep acc.1 t.1 t.2
      (r.1, acc.2 ++ r.2.toList))
    (bs, [])

/-! ## The end-to-end success condition of `fetchUVData` -/

/-- The conjunction of collaborator outcomes under which `fetchUVData`
reaches its success path (lines 1375-1398): WiFi up, HTTP 200, JSON
decoded, the hourly structure present, local time available, and an
alignment index found. -/
def fetchSucceeds (env : FetchEnv) : Prop :=
  env.wifiConnected = true ∧ env.httpCode = 200 ∧ env.decodeOk = true ∧
  env.hourlyPresent = true ∧ env.timeAvail = true ∧
  (findStartIndex env.times env.currentHour).isSome = true

instance (env : FetchEnv) : Decidable (fetchSucceeds env) := by
  unfold fetchSucceeds; infer_instance

/-- The spec's data-model invariant: whenever `rtc_hasValidData` is
false, every working and RTC forecast slot is in the empty sentinel form
(hour = -1, value = -1). -/
def forecastInvariant (s : DeviceState) : Prop :=
  s.rtcHasValidData = false →
    (s.hourlyUV = List.replicate HOURLY_FORECAST_COUNT (-1) ∧
     s.forecastHours = List.replicate HOURLY_FORECAST_COUNT (-1) ∧
     s.rtcHourlyUV = List.replicate HOURLY_FORECAST_COUNT (-1) ∧
     s.rtcForecastHours = List.replicate HOURLY_FORECAST_COUNT (-1))

instance (s : DeviceState) : Decidable (forecastInvariant s) := by
  unfold forecastInvariant; infer_instance

/-- Classifier state of a button currently held low with the long press
already fired. -/
def heldButtonState : ButtonState :=
  { lastPressTime := 1200, lastStateHigh := false, pressStartTime := 150, isHeld := true }

/-! ## Concrete example inputs used by counterexamples and witnesses -/

/-- A concrete state holding a valid six-slot forecast. -/
def exampleState : DeviceState := {
  lastUpdateTimeStr := "12:00 GST", deviceLatitude := 252697, deviceLongitude := 553095,
  locationDisplayStr := "IP: Dubai", useGpsFromSecrets := false,
  hourlyUV := [1, 2, 3, 4, 5, 6], forecastHours := [10, 11, 12, 13, 14, 15],
  dataJustFetched := false, forceDisplayUpdate := false, isLowPowerModeActive := false,
  rtcMagicCookie := RTC_MAGIC_VALUE, rtcHasValidData := true,
  rtcHourlyUV := [1, 2, 3, 4, 5, 6], rtcForecastHours := [10, 11, 12, 13, 14, 15],
  rtcLastUpdateTimeStr := "12:00 GST", rtcLocationDisplayStr := "IP: Dubai",
  rtcDeviceLatitude := 252697, rtcDeviceLongitude := 553095,
  rtcUseGpsFromSecretsGlobal := false,
  eepromLpmFlag := 0, eepromWriteCount := 0 }

/-- Concrete state with an uninitialized (0xFF) EEPROM flag byte. -/
def stateFFFlag : DeviceState := {
  lastUpdateTimeStr := "Never", deviceLatitude := 1, deviceLongitude := 2,
  locationDisplayStr := "Initializing...", useGpsFromSecrets := false,
  hourlyUV := List.replicate 6 (-1), forecastHours := List.replicate 6 (-1),
  dataJustFetched := false, forceDisplayUpdate := false, isLowPowerModeActive := true,
  rtcMagicCookie := 0, rtcHasValidData := false,
  rtcHourlyUV := List.replicate 6 (-1), rtcForecastHours := List.replicate 6 (-1),
  rtcLastUpdateTimeStr := "Never", rtcLocationDisplayStr := "Initializing...",
  rtcDeviceLatitude := 1, rtcDeviceLongitude := 2, rtcUseGpsFromSecretsGlobal := false,
  eepromLpmFlag := 255, eepromWriteCount := 0 }

/-- Concrete state whose RTC magic cookie does not match (simulating a
power loss) while the untouched RTC location-preference cell reads true. -/
def stateBadCookie : DeviceState :=
  { exampleState with rtcMagicCookie := 0, rtcUseGpsFromSecretsGlobal := true,
                      useGpsFromSecrets := true }

/-- Fetch environment: a successful HTTP exchange whose hourly series only
contains hours (8 and 9) before the current local hour 10, so the
alignment scan finds no start index. -/
def envNoAlign : FetchEnv := {
  wifiConnected := true, httpCode := 200, decodeOk := true, hourlyPresent := true,
  times := [{ okLen := true, hour := 8 }, { okLen := true, hour := 9 }],
  uvs := [some 1, some 2], timeAvail := true, currentHour := 10,
  timeAvail2 := true, nowH := 14, nowM := 30, tzAbbr := some "GST",
  wifiAtFailCheck := true }

/-- Fetch environment: WiFi connected and local time available, but the
forecast request returns HTTP 404. -/
def envHttpFail : FetchEnv := {
  wifiConnected := true, httpCode := 404, decodeOk := false, hourlyPresent := false,
  times := [], uvs := [], timeAvail := true, currentHour := 10,
  timeAvail2 := true, nowH := 14, nowM := 30, tzAbbr := none,
  wifiAtFailCheck := true }

/-- Fetch environment: a fully successful exchange aligned at hour 10. -/
def envSuccess : FetchEnv := {
  wifiConnected := true, httpCode := 200, decodeOk := true, hourlyPresent := true,
  times := [{ okLen := true, hour := 8 }, { okLen := true, hour := 9 }, { okLen := true, hour := 10 },
            { okLen := true, hour := 11 }, { okLen := true, hour := 12 }],
  uvs := [some 1, some 2, none, some (-3), some 7],
  timeAvail := true, currentHour := 10,
  timeAvail2 := true, nowH := 14, nowM := 30, tzAbbr := some "GST",
  wifiAtFailCheck := true }

/-- Fetch environment: WiFi reads disconnected at `fetchUVData` entry
(line 1286), so no network step runs. -/
def envWifiDown : FetchEnv := {
  wifiConnected := false, httpCode := 0, decodeOk := false, hourlyPresent := false,
  times := [], uvs := [], timeAvail := false, currentHour := 0,
  timeAvail2 := false, nowH := 0, nowM := 0, tzAbbr := none,
  wifiAtFailCheck := false }

/-- IP-geolocation environment where the lookup fails outright. -/
def ipGeoFail : IpGeoEnv :=
  { httpCode := 0, decodeOk := false, statusSuccess := false,
    lat := 0, lon := 0, city := none }

/-- IP-geolocation environment where the lookup succeeds. -/
def ipGeoSuccess : IpGeoEnv :=
  { httpCode := 200, decodeOk := true, statusSuccess := true,
    lat := 599130, lon := 107390, city := some "Oslo" }

/-- Fetch-sequence environment: WiFi stays up throughout and the UV fetch
succeeds (a routine data-fetch cycle that changes no power mode). -/
def seqEnvConnected : SeqEnv :=
  { wifiAfterConnect := true, wifiAtIpGeo := true, ipGeo := ipGeoFail,
    fetch := envSuccess, wifiAtSaveCheck := true }

/-- Fetch-sequence environment: WiFi is up at line 438 and during a
successful IP geolocation (so `useGpsFromSecrets` stays false), then
drops before the fetch and before the save guard at line 476. -/
def seqEnvWifiDrop : SeqEnv :=
  { wifiAfterConnect := true, wifiAtIpGeo := true, ipGeo := ipGeoSuccess,
    fetch := envWifiDown, wifiAtSaveCheck := false }

/-- Initial classifier state of either button (lines 62-70: last state
HIGH, timers at zero). -/
def initialButtonState : ButtonState :=
  { lastPressTime := 0, lastStateHigh := true, pressStartTime := 0, isHeld := false }

/-- Loop ticks every 50 ms: a press lands at t=150 and is released at t=450,
300 ms after the debounced falling edge and below the 1000 ms long-press
threshold. -/
def ticksShortPress : List (Nat × Bool) :=
  [(100, true), (150, false), (200, false), (250, false), (300, false),
   (350, false), (400, false), (450, true), (500, true)]

/-- Loop ticks every 50 ms: a press lands at t=150 and is held low until the
release at t=1650, i.e. held for 1500 ms, well past the threshold. -/
def ticksLongPress : List (Nat × Bool) :=
  [(100, true), (150, false), (200, false), (250, false), (300, false),
   (350, false), (400, false), (450, false), (500, false), (550, false),
   (600, false), (650, false), (700, false), (750, false), (800, false),
   (850, false), (900, false), (950, false), (1000, false), (1050, false),
   (1100, false), (1150, false), (1200, false), (1250, false), (1300, false),
   (1350, false), (1400, false), (1450, false), (1500, false), (1550, false),
   (1600, false), (1650, true), (1700, true)]

/-! ## Helper lemmas about `scanStep` -/

theorem scanStep_skip {now iv cand : Nat} (st : Nat × Bool) (b : Bool) (hA : ¬ now < cand)
    (hne : cand ≠ now) (hC : ¬(now - cand < iv * 60 ∧ now - cand < 30)) :
    scanStep now b iv cand st = st := by
  unfold scanStep
  rw [if_neg hA, if_neg]
  rintro ⟨-, h | h⟩
  · exact hne h
  · exact hC h

theorem scanStep_due {now iv cand : Nat} (st : Nat × Bool) (hA : ¬ now < cand)
    (hC : cand = now ∨ (now - cand < iv * 60 ∧ now - cand < 30)) :
    scanStep now true iv cand st = (st.1, true) := by
  unfold scanStep
  rw [if_neg hA, if_pos ⟨rfl, hC⟩]

theorem scanStep_take {now iv cand : Nat} (st : Nat × Bool) (b : Bool) (hA : now < cand)
    (hB : st.1 = 0 ∨ cand < st.1) :
    scanStep now b iv cand st = (cand, st.2) := by
  unfold scanStep
  rw [if_pos hA, if_pos hB]

theorem scanStep_keep {now iv cand : Nat} (st : Nat × Bool) (b : Bool) (hA : now < cand)
    (hB : ¬(st.1 = 0 ∨ cand < st.1)) :
    scanStep now b iv cand st = st := by
  unfold scanStep
  rw [if_pos hA, if_neg hB]

/-! ## Claim C9: parameter clamping -/

theorem clampUpdatesPerHour_idem (u : Nat) :
    clampUpdatesPerHour (clampUpdatesPerHour u) = clampUpdatesPerHour u := by
  unfold clampUpdatesPerHour
  split_ifs <;> omega

theorem clampTargetStartMinute_idem (m : Nat) :
    clampTargetStartMinute (clampTargetStartMinute m) = clampTargetStartMinute m := by
  unfold clampTargetStartMinute
  split_ifs <;> omega

/-- C9: for every input, `calculateNextUpdateTimeDetails` replaces
out-of-range parameters (updatesPerHour = 0 or > 60, targetStartMinute
≥ 60) with in-range values before computing the interval: the effective
updates-per-hour lies in [1,60] (in particular it is nonzero, so
`60 / updatesPerHour` never divides by zero), the effective target minute
lies in [0,59], and the function computes exactly as if it had been
called on the clamped parameters. -/
theorem claim9_parameter_clamping (u m : Nat) :
    1 ≤ clampUpdatesPerHour u ∧ clampUpdatesPerHour u ≤ 60 ∧
    clampTargetStartMinute m ≤ 59 ∧ clampUpdatesPerHour u ≠ 0 ∧
    (∀ t b, calculateNextUpdateTimeDetails t u m b =
      calculateNextUpdateTimeDetails t (clampUpdatesPerHour u) (clampTargetStartMinute m) b) := by
  refine ⟨?_, ?_, ?_, ?_, ?_⟩
  · unfold clampUpdatesPerHour; split_ifs <;> omega
  · unfold clampUpdatesPerHour; split_ifs <;> omega
  · unfold clampTargetStartMinute; split_ifs <;> omega
  · unfold clampUpdatesPerHour; split_ifs <;> omega
  · intro t b
    simp only [calculateNextUpdateTimeDetails, clampUpdatesPerHour_idem, clampTargetStartMinute_idem]

/-! ## Claim C10: EEPROM power-mode flag repair -/

/-- C10: if the EEPROM byte holding the power-mode flag reads any value
other than 0 or 1 (for example an erased 0xFF), `loadPersistentState`
defaults the mode to Normal (`isLowPowerModeActive = false`) and writes 0
back to the flag byte, so a subsequent read of the flag returns a valid
value. -/
theorem claim10_eeprom_flag_repair (s : DeviceState)
    (h0 : s.eepromLpmFlag ≠ 0) (h1 : s.eepromLpmFlag ≠ 1) :
    (loadPersistentState s).isLowPowerModeActive = false ∧
    (loadPersistentState s).eepromLpmFlag = 0 := by
  simp only [loadPersistentState, initializeForecastData]
  split_ifs <;> simp_all

/-- Witness for C10 at the concrete state with flag byte 0xFF. -/
theorem claim10_eeprom_flag_repair_witness :
    (loadPersistentState stateFFFlag).isLowPowerModeActive = false ∧
    (loadPersistentState stateFFFlag).eepromLpmFlag = 0 :=
  claim10_eeprom_flag_repair stateFFFlag (by decide) (by decide)

/-! ## Claim C5: Normal-mode schedule check examples -/

theorem c5_scan_0730 (day : Nat) :
    scanSlots ⟨day,14,7,30⟩ (Tm.epoch ⟨day,14,7,30⟩) 5 15 4 true = (day*86400 + 51600, false) := by
  have hnow : Tm.epoch ⟨day,14,7,30⟩ = day*86400 + 50850 := by unfold Tm.epoch mkEpoch; ring
  have hc0 : candEpoch ⟨day,14,7,30⟩ 5 15 0 0 = day*86400 + 50700 := by unfold candEpoch mkEpoch; ring
  have hc1 : candEpoch ⟨day,14,7,30⟩ 5 15 0 1 = day*86400 + 51600 := by unfold candEpoch mkEpoch; ring
  have hc2 : candEpoch ⟨day,14,7,30⟩ 5 15 0 2 = day*86400 + 52500 := by unfold candEpoch mkEpoch; ring
  have hc3 : candEpoch ⟨day,14,7,30⟩ 5 15 0 3 = day*86400 + 53400 := by unfold candEpoch mkEpoch; ring
  unfold scanSlots scanHour scanFold
  rw [show List.range 4 = [0,1,2,3] from rfl]
  simp only [List.foldl, hc0, hc1, hc2, hc3, hnow]
  have s1 : scanStep (day*86400+50850) true 15 (day*86400+50700) (0,false) = (0,false) :=
    scanStep_skip _ _ (by omega) (by omega) (by omega)
  have s2 : scanStep (day*86400+50850) true 15 (day*86400+51600) (0,false) = (day*86400+51600, false) :=
    scanStep_take _ _ (by omega) (Or.inl rfl)
  have s3 : scanStep (day*86400+50850) true 15 (day*86400+52500) (day*86400+51600, false)
      = (day*86400+51600, false) :=
    scanStep_keep _ _ (by omega) (by omega)
  have s4 : scanStep (day*86400+50850) true 15 (day*86400+53400) (day*86400+51600, false)
      = (day*86400+51600, false) :=
    scanStep_keep _ _ (by omega) (by omega)
  rw [s1, s2, s3, s4]
  rw [if_pos ⟨by omega, rfl⟩]

theorem c5_scan_0510 (day : Nat) :
    scanSlots ⟨day,14,5,10⟩ (Tm.epoch ⟨day,14,5,10⟩) 5 15 4 true = (day*86400 + 51600, true) := by
  have hnow : Tm.epoch ⟨day,14,5,10⟩ = day*86400 + 50710 := by unfold Tm.epoch mkEpoch; ring
  have hc0 : candEpoch ⟨day,14,5,10⟩ 5 15 0 0 = day*86400 + 50700 := by unfold candEpoch mkEpoch; ring
  have hc1 : candEpoch ⟨day,14,5,10⟩ 5 15 0 1 = day*86400 + 51600 := by unfold candEpoch mkEpoch; ring
  have hc2 : candEpoch ⟨day,14,5,10⟩ 5 15 0 2 = day*86400 + 52500 := by unfold candEpoch mkEpoch; ring
  have hc3 : candEpoch ⟨day,14,5,10⟩ 5 15 0 3 = day*86400 + 53400 := by unfold candEpoch mkEpoch; ring
  unfold scanSlots scanHour scanFold
  rw [show List.range 4 = [0,1,2,3] from rfl]
  simp only [List.foldl, hc0, hc1, hc2, hc3, hnow]
  have s1 : scanStep (day*86400+50710) true 15 (day*86400+50700) (0,false) = (0, true) :=
    scanStep_due _ (by omega) (Or.inr (by omega))
  have s2 : scanStep (day*86400+50710) true 15 (day*86400+51600) (0,true) = (day*86400+51600, true) :=
    scanStep_take _ _ (by omega) (Or.inl rfl)
  have s3 : scanStep (day*86400+50710) true 15 (day*86400+52500) (day*86400+51600, true)
      = (day*86400+51600, true) :=
    scanStep_keep _ _ (by omega) (by omega)
  have s4 : scanStep (day*86400+50710) true 15 (day*86400+53400) (day*86400+51600, true)
      = (day*86400+51600, true) :=
    scanStep_keep _ _ (by omega) (by omega)
  rw [s1, s2, s3, s4]
  rw [if_neg (by simp), if_pos ⟨by omega, rfl, by omega⟩]

/-- C5: with updatesPerHour = 4 and targetStartMinute = 5, a Normal-mode
check of `calculateNextUpdateTimeDetails` at 14:07:30 (any day) reports no
update due and schedules the next update for 14:20:00 of the same day,
while a check at 14:05:10 reports an update due now. -/
theorem claim5_normal_mode_examples (day : Nat) :
    (calculateNextUpdateTimeDetails ⟨day, 14, 7, 30⟩ 4 5 true).updateNow = false ∧
    (calculateNextUpdateTimeDetails ⟨day, 14, 7, 30⟩ 4 5 true).nextUpdateEpoch = mkEpoch day 14 20 0 ∧
    (calculateNextUpdateTimeDetails ⟨day, 14, 5, 10⟩ 4 5 true).updateNow = true := by
  have hme : mkEpoch day 14 20 0 = day*86400 + 51600 := by unfold mkEpoch; ring
  have hnow1 : Tm.epoch ⟨day,14,7,30⟩ = day*86400 + 50850 := by unfold Tm.epoch mkEpoch; ring
  refine ⟨?_, ?_, ?_⟩
  · simp only [calculateNextUpdateTimeDetails,
      show clampUpdatesPerHour 4 = 4 by decide, show clampTargetStartMinute 5 = 5 by decide,
      show (60:Nat)/4 = 15 by decide, c5_scan_0730 day, hme]
    rw [hnow1]
    split_ifs <;> simp_all
  · simp only [calculateNextUpdateTimeDetails,
      show clampUpdatesPerHour 4 = 4 by decide, show clampTargetStartMinute 5 = 5 by decide,
      show (60:Nat)/4 = 15 by decide, c5_scan_0730 day, hme]
    rw [hnow1]
    split_ifs <;> simp_all
  · simp only [calculateNextUpdateTimeDetails,
      show clampUpdatesPerHour 4 = 4 by decide, show clampTargetStartMinute 5 = 5 by decide,
      show (60:Nat)/4 = 15 by decide, c5_scan_0510 day]
    split_ifs <;> simp_all

/-! ## Claims C1 and C2: fetch failure behaviour -/

/-- C1 counterexample: a fetch cycle whose alignment scan fails (no entry
of the series has hour-of-day at or past the current local hour 10)
leaves all six slots in the sentinel form `(-1, -1)` — not filled with
projected hours `(10+i) mod 24` and zero intensity — so the slots'
`hourOfDay` values are not all in [0,23], contrary to the claim. -/
theorem claim1_counterexample :
    (fetchUVData envNoAlign exampleState).1.forecastHours = List.replicate 6 (-1) ∧
    (fetchUVData envNoAlign exampleState).1.hourlyUV = List.replicate 6 (-1) ∧
    ¬ (∀ h ∈ (fetchUVData envNoAlign exampleState).1.forecastHours, 0 ≤ h ∧ h ≤ 23) := by
  refine ⟨by decide, by decide, ?_⟩
  intro hall
  have := hall (-1) (by decide)
  omega

/-- On every failed fetch, all six working and RTC slots are set to the
sentinel and the validity flag is cleared. -/
theorem fetch_fail_sentinels (env : FetchEnv) (s : DeviceState)
    (h : ¬ fetchSucceeds env) :
    (fetchUVData env s).1.hourlyUV = List.replicate HOURLY_FORECAST_COUNT (-1) ∧
    (fetchUVData env s).1.forecastHours = List.replicate HOURLY_FORECAST_COUNT (-1) ∧
    (fetchUVData env s).1.rtcHourlyUV = List.replicate HOURLY_FORECAST_COUNT (-1) ∧
    (fetchUVData env s).1.rtcForecastHours = List.replicate HOURLY_FORECAST_COUNT (-1) ∧
    (fetchUVData env s).1.rtcHasValidData = false := by
  unfold fetchUVData fetchSucceeds at *
  by_cases hh : env.httpCode = 200 <;>
    cases hw : env.wifiConnected <;>
    cases hd : env.decodeOk <;>
    cases hp : env.hourlyPresent <;>
    cases ht : env.timeAvail <;>
    cases ht2 : env.timeAvail2 <;>
    cases hw2 : env.wifiAtFailCheck <;>
    rcases hk : findStartIndex env.times env.currentHour with _ | k <;>
    simp_all [fetchLabel, initializeForecastData]

/-- C1 (amended): on every failed fetch cycle — no WiFi, non-200 HTTP
status, JSON decode error, missing hourly structure, local time
unavailable, or no alignment index — `fetchUVData` sets all six working
and RTC forecast slots to the invalid sentinel form (hour = -1,
value = -1) and marks the forecast invalid; no projected-hour fallback
exists. -/
theorem claim1_failed_fetch_sentinel_slots (env : FetchEnv) (s : DeviceState)
    (h : ¬ fetchSucceeds env) :
    (fetchUVData env s).1.hourlyUV = List.replicate HOURLY_FORECAST_COUNT (-1) ∧
    (fetchUVData env s).1.forecastHours = List.replicate HOURLY_FORECAST_COUNT (-1) ∧
    (fetchUVData env s).1.rtcHourlyUV = List.replicate HOURLY_FORECAST_COUNT (-1) ∧
    (fetchUVData env s).1.rtcForecastHours = List.replicate HOURLY_FORECAST_COUNT (-1) ∧
    (fetchUVData env s).1.rtcHasValidData = false :=
  fetch_fail_sentinels env s h

/-- Witness for the amended C1 at the concrete no-alignment environment. -/
theorem claim1_failed_fetch_sentinel_slots_witness :
    (fetchUVData envNoAlign exampleState).1.hourlyUV = List.replicate HOURLY_FORECAST_COUNT (-1) ∧
    (fetchUVData envNoAlign exampleState).1.forecastHours = List.replicate HOURLY_FORECAST_COUNT (-1) ∧
    (fetchUVData envNoAlign exampleState).1.rtcHourlyUV = List.replicate HOURLY_FORECAST_COUNT (-1) ∧
    (fetchUVData envNoAlign exampleState).1.rtcForecastHours = List.replicate HOURLY_FORECAST_COUNT (-1) ∧
    (fetchUVData envNoAlign exampleState).1.rtcHasValidData = false :=
  claim1_failed_fetch_sentinel_slots envNoAlign exampleState (by decide)

/-- C2 counterexample: a fetch attempt with WiFi connected and local time
available, but HTTP status 404, sets `rtc_hasValidData` to `false` — so
the flag is cleared on a non-success HTTP status, not only when local
time cannot be determined. -/
theorem claim2_counterexample :
    envHttpFail.wifiConnected = true ∧ envHttpFail.timeAvail = true ∧
    envHttpFail.httpCode = 404 ∧ exampleState.rtcHasValidData = true ∧
    (fetchUVData envHttpFail exampleState).1.rtcHasValidData = false := by
  decide

/-- After a fetch, `rtc_hasValidData` is true exactly on the end-to-end
success path, and the returned flag coincides with it. -/
theorem fetch_hasValid_iff (env : FetchEnv) (s : DeviceState) :
    ((fetchUVData env s).1.rtcHasValidData = true ↔ fetchSucceeds env) ∧
    (fetchUVData env s).2 = (fetchUVData env s).1.rtcHasValidData := by
  unfold fetchUVData fetchSucceeds
  by_cases hh : env.httpCode = 200 <;>
    cases hw : env.wifiConnected <;>
    cases hd : env.decodeOk <;>
    cases hp : env.hourlyPresent <;>
    cases ht : env.timeAvail <;>
    cases ht2 : env.timeAvail2 <;>
    cases hw2 : env.wifiAtFailCheck <;>
    rcases hk : findStartIndex env.times env.currentHour with _ | k <;>
    simp_all [fetchLabel, initializeForecastData]

/-- C2 (amended): after any `fetchUVData` attempt, `rtc_hasValidData` is
true exactly when the fetch succeeded end to end (WiFi up, HTTP 200, JSON
decoded, hourly structure present, local time available, alignment index
found); it is set to false on every failure path — connectivity failure,
non-success HTTP status and JSON decode error included — and the returned
`parseSuccess` flag coincides with the stored flag. -/
theorem claim2_hasValid_characterization (env : FetchEnv) (s : DeviceState) :
    ((fetchUVData env s).1.rtcHasValidData = true ↔ fetchSucceeds env) ∧
    (fetchUVData env s).2 = (fetchUVData env s).1.rtcHasValidData :=
  fetch_hasValid_iff env s

/-! ## Claim C3: EEPROM flag write discipline -/

/-- C3 counterexample: a routine data-fetch cycle (WiFi up throughout)
that leaves `isLowPowerModeActive` unchanged still issues an EEPROM
write of the power-mode flag byte (the write counter advances), because
the save step reached at line 477 calls `savePersistentState`, which
writes the flag unconditionally. -/
theorem claim3_counterexample :
    (performDataFetchSequence seqEnvConnected exampleState).isLowPowerModeActive
      = exampleState.isLowPowerModeActive ∧
    (performDataFetchSequence seqEnvConnected exampleState).eepromWriteCount
      = exampleState.eepromWriteCount + 1 := by
  decide

theorem save_frame (s : DeviceState) :
    (savePersistentState s).eepromWriteCount = s.eepromWriteCount + 1 ∧
    (savePersistentState s).isLowPowerModeActive = s.isLowPowerModeActive ∧
    (savePersistentState s).useGpsFromSecrets = s.useGpsFromSecrets := by
  simp only [savePersistentState]
  split_ifs <;> simp

theorem fetch_frame (env : FetchEnv) (s : DeviceState) :
    (fetchUVData env s).1.eepromWriteCount = s.eepromWriteCount ∧
    (fetchUVData env s).1.isLowPowerModeActive = s.isLowPowerModeActive ∧
    (fetchUVData env s).1.useGpsFromSecrets = s.useGpsFromSecrets := by
  unfold fetchUVData
  by_cases hh : env.httpCode = 200 <;>
    cases hw : env.wifiConnected <;>
    cases hd : env.decodeOk <;>
    cases hp : env.hourlyPresent <;>
    cases ht : env.timeAvail <;>
    cases ht2 : env.timeAvail2 <;>
    cases hw2 : env.wifiAtFailCheck <;>
    rcases hk : findStartIndex env.times env.currentHour with _ | k <;>
    simp_all [fetchLabel, initializeForecastData]

theorem ipgeo_frame (w : Bool) (env : IpGeoEnv) (s : DeviceState) :
    (fetchLocationFromIp w env s).1.eepromWriteCount = s.eepromWriteCount ∧
    (fetchLocationFromIp w env s).1.isLowPowerModeActive = s.isLowPowerModeActive ∧
    (fetchLocationFromIp w env s).1.useGpsFromSecrets = s.useGpsFromSecrets := by
  unfold fetchLocationFromIp
  split_ifs <;> simp_all

/-- Preservation of the empty-slots invariant by `fetchUVData`: it holds
of the result of every fetch, unconditionally (failures write sentinels,
successes set the flag). -/
theorem fetch_invariant (env : FetchEnv) (s : DeviceState) :
    forecastInvariant (fetchUVData env s).1 := by
  intro hv
  by_cases hf : fetchSucceeds env
  · have htrue := (fetch_hasValid_iff env s).1.mpr hf
    simp [htrue] at hv
  · obtain ⟨h1, h2, h3, h4, -⟩ := fetch_fail_sentinels env s hf
    exact ⟨h1, h2, h3, h4⟩

/-- Equation exposing the line-476 save guard of the sequence: the body
state is saved exactly when WiFi is still up at the final re-check or
`useGpsFromSecrets` ended up true. -/
theorem performDataFetchSequence_eq (env : SeqEnv) (s : DeviceState) :
    performDataFetchSequence env s =
      if env.wifiAtSaveCheck = true ∨ (fetchCycleBody env s).useGpsFromSecrets = true
      then savePersistentState (fetchCycleBody env s) else fetchCycleBody env s := rfl

/-- The pre-save body of the sequence leaves the EEPROM write counter and
the power mode unchanged and establishes the empty-slots invariant. -/
theorem fetchCycleBody_frame (env : SeqEnv) (s : DeviceState) :
    (fetchCycleBody env s).eepromWriteCount = s.eepromWriteCount ∧
    (fetchCycleBody env s).isLowPowerModeActive = s.isLowPowerModeActive ∧
    forecastInvariant (fetchCycleBody env s) := by
  simp only [fetchCycleBody]
  by_cases hwa : env.wifiAfterConnect = true
  · rw [if_pos hwa]
    by_cases hug : s.useGpsFromSecrets = true
    · rw [if_pos hug]
      exact ⟨by simp [(fetch_frame _ _).1], by simp [(fetch_frame _ _).2.1],
             fun hv => fetch_invariant _ _ hv⟩
    · rw [if_neg hug]
      cases hr : (fetchLocationFromIp env.wifiAtIpGeo env.ipGeo s).2
      · rw [if_pos rfl]
        exact ⟨by simp [(fetch_frame _ _).1, (ipgeo_frame _ _ _).1],
               by simp [(fetch_frame _ _).2.1, (ipgeo_frame _ _ _).2.1],
               fun hv => fetch_invariant _ _ hv⟩
      · rw [if_neg (show ¬(true = false) by simp)]
        exact ⟨by simp [(fetch_frame _ _).1, (ipgeo_frame _ _ _).1],
               by simp [(fetch_frame _ _).2.1, (ipgeo_frame _ _ _).2.1],
               fun hv => fetch_invariant _ _ hv⟩
  · rw [if_neg hwa]
    exact ⟨by simp [initializeForecastData], by simp [initializeForecastData],
           by intro hv; simp [initializeForecastData]⟩

/-- C3 (amended): `savePersistentState` writes the EEPROM power-mode flag
byte on every invocation, whether or not the mode changed.  Consequently
every sleep entry, and every data-fetch cycle that reaches the save step
— WiFi still connected at the line-476 re-check, or `useGpsFromSecrets`
true, which holds after every offline run and every IP-geolocation
failure — issues exactly one EEPROM flag write while leaving
`isLowPowerModeActive` unchanged; a cycle in which WiFi drops after a
successful IP geolocation skips the save and performs no EEPROM write.
Only the external EEPROM library's own change detection, not this code,
can suppress physical flash wear. -/
theorem claim3_eeprom_written_every_cycle (env : SeqEnv) (s : DeviceState) :
    (savePersistentState s).eepromWriteCount = s.eepromWriteCount + 1 ∧
    (savePersistentState s).isLowPowerModeActive = s.isLowPowerModeActive ∧
    (enterDeepSleepPersist s).eepromWriteCount = s.eepromWriteCount + 1 ∧
    (performDataFetchSequence env s).isLowPowerModeActive = s.isLowPowerModeActive ∧
    (env.wifiAtSaveCheck = true ∨ (performDataFetchSequence env s).useGpsFromSecrets = true →
      (performDataFetchSequence env s).eepromWriteCount = s.eepromWriteCount + 1) ∧
    (env.wifiAtSaveCheck = false →
      (performDataFetchSequence env s).useGpsFromSecrets = false →
      (performDataFetchSequence env s).eepromWriteCount = s.eepromWriteCount) := by
  obtain ⟨hc, hl, -⟩ := fetchCycleBody_frame env s
  have heq := performDataFetchSequence_eq env s
  by_cases hguard : env.wifiAtSaveCheck = true ∨ (fetchCycleBody env s).useGpsFromSecrets = true
  · rw [if_pos hguard] at heq
    refine ⟨(save_frame s).1, (save_frame s).2.1, (save_frame s).1, ?_, ?_, ?_⟩
    · rw [heq, (save_frame (fetchCycleBody env s)).2.1, hl]
    · intro _
      rw [heq, (save_frame (fetchCycleBody env s)).1, hc]
    · intro hw hg
      rw [heq, (save_frame (fetchCycleBody env s)).2.2] at hg
      rcases hguard with h | h <;> simp_all
  · rw [if_neg hguard] at heq
    push_neg at hguard
    refine ⟨(save_frame s).1, (save_frame s).2.1, (save_frame s).1, ?_, ?_, ?_⟩
    · rw [heq, hl]
    · intro hcon
      rw [heq] at hcon
      rcases hcon with h | h
      · exact absurd h hguard.1
      · exact absurd h hguard.2
    · intro _ _
      rw [heq, hc]

/-- Witness for C3: a routine connected cycle writes the flag once with
the mode unchanged, while a cycle in which WiFi drops after a successful
IP geolocation performs no EEPROM write. -/
theorem claim3_eeprom_written_every_cycle_witness :
    (performDataFetchSequence seqEnvConnected exampleState).eepromWriteCount
      = exampleState.eepromWriteCount + 1 ∧
    (performDataFetchSequence seqEnvWifiDrop exampleState).eepromWriteCount
      = exampleState.eepromWriteCount :=
  ⟨(claim3_eeprom_written_every_cycle seqEnvConnected exampleState).2.2.2.2.1 (by decide),
   (claim3_eeprom_written_every_cycle seqEnvWifiDrop exampleState).2.2.2.2.2
     (by decide) (by decide)⟩

/-! ## Claim C8: the empty-slots invariant -/

theorem save_invariant (s : DeviceState) (h : forecastInvariant s) :
    forecastInvariant (savePersistentState s) := by
  unfold forecastInvariant at *
  simp only [savePersistentState]
  split_ifs <;> intro hv <;> simp_all

theorem load_invariant (s : DeviceState) (h : forecastInvariant s) :
    forecastInvariant (loadPersistentState s) := by
  unfold forecastInvariant at *
  simp only [loadPersistentState, initializeForecastData]
  split_ifs <;> intro hv <;> simp_all

theorem ipgeo_frame_slots (w : Bool) (env : IpGeoEnv) (s : DeviceState)
    (h : forecastInvariant s) :
    forecastInvariant (fetchLocationFromIp w env s).1 := by
  unfold forecastInvariant at *
  unfold fetchLocationFromIp
  split_ifs <;> intro hv <;> simp_all

/-- C8: the invariant "whenever `rtc_hasValidData` is false, every one of
the six forecast slots (working and RTC copies) is in its empty sentinel
form (hour = -1, value = -1)" is preserved by every modelled operation:
`loadPersistentState`, `savePersistentState`, every `fetchUVData` path,
every `performDataFetchSequence` path (including the offline fallback),
and the save performed on sleep entry. -/
theorem claim8_invariant_preserved (s : DeviceState) (h : forecastInvariant s) :
    forecastInvariant (loadPersistentState s) ∧
    forecastInvariant (savePersistentState s) ∧
    (∀ env, forecastInvariant (fetchUVData env s).1) ∧
    (∀ env, forecastInvariant (performDataFetchSequence env s)) ∧
    forecastInvariant (enterDeepSleepPersist s) := by
  refine ⟨load_invariant s h, save_invariant s h, fun env => fetch_invariant env s,
          fun env => ?_, save_invariant s h⟩
  obtain ⟨-, -, hinv⟩ := fetchCycleBody_frame env s
  rw [performDataFetchSequence_eq]
  by_cases hguard : env.wifiAtSaveCheck = true ∨ (fetchCycleBody env s).useGpsFromSecrets = true
  · rw [if_pos hguard]
    exact save_invariant (fetchCycleBody env s) hinv
  · rw [if_neg hguard]
    exact hinv

/-- Witness for C8 at the concrete example state (whose forecast is
valid, so the invariant holds on entry). -/
theorem claim8_invariant_preserved_witness :
    forecastInvariant (loadPersistentState exampleState) ∧
    forecastInvariant (performDataFetchSequence seqEnvConnected exampleState) :=
  ⟨(claim8_invariant_preserved exampleState (by decide)).1,
   (claim8_invariant_preserved exampleState (by decide)).2.2.2.1 seqEnvConnected⟩

/-! ## Claim C6: persistence round trip and cookie-mismatch defaults -/

/-- Round trip through `savePersistentState` then `loadPersistentState`
restores every persisted field, for labels that fit the 15/31-character
RTC buffers. -/
theorem roundtrip_restores (s : DeviceState) (h : s.rtcHasValidData = true)
    (hl1 : s.lastUpdateTimeStr.length ≤ 15) (hl2 : s.locationDisplayStr.length ≤ 31) :
    (loadPersistentState (savePersistentState s)).hourlyUV = s.hourlyUV ∧
    (loadPersistentState (savePersistentState s)).forecastHours = s.forecastHours ∧
    (loadPersistentState (savePersistentState s)).lastUpdateTimeStr = s.lastUpdateTimeStr ∧
    (loadPersistentState (savePersistentState s)).locationDisplayStr = s.locationDisplayStr ∧
    (loadPersistentState (savePersistentState s)).deviceLatitude = s.deviceLatitude ∧
    (loadPersistentState (savePersistentState s)).deviceLongitude = s.deviceLongitude ∧
    (loadPersistentState (savePersistentState s)).useGpsFromSecrets = s.useGpsFromSecrets ∧
    (loadPersistentState (savePersistentState s)).isLowPowerModeActive = s.isLowPowerModeActive := by
  simp only [savePersistentState, loadPersistentState, strTrunc]
  split_ifs <;> simp_all

/-- On cookie mismatch, `loadPersistentState` produces the hard-coded
defaults: sentinel forecast, "Never" label, secrets coordinates,
`useGpsFromSecrets = false`, and a rewritten cookie. -/
theorem load_mismatch_defaults (s : DeviceState) (hm : s.rtcMagicCookie ≠ RTC_MAGIC_VALUE) :
    (loadPersistentState s).hourlyUV = List.replicate HOURLY_FORECAST_COUNT (-1) ∧
    (loadPersistentState s).forecastHours = List.replicate HOURLY_FORECAST_COUNT (-1) ∧
    (loadPersistentState s).lastUpdateTimeStr = "Never" ∧
    (loadPersistentState s).locationDisplayStr = "Initializing..." ∧
    (loadPersistentState s).deviceLatitude = MY_LATITUDE ∧
    (loadPersistentState s).deviceLongitude = MY_LONGITUDE ∧
    (loadPersistentState s).useGpsFromSecrets = false ∧
    (loadPersistentState s).rtcMagicCookie = RTC_MAGIC_VALUE ∧
    (loadPersistentState s).rtcHasValidData = false := by
  simp only [loadPersistentState, initializeForecastData]
  split_ifs <;> simp_all

/-- After a mismatch-triggered re-initialization, a second load is stable
on every field except the location-source preference, which is re-read
from the RTC cell the mismatch path never rewrote. -/
theorem load_mismatch_stability (s : DeviceState) (hm : s.rtcMagicCookie ≠ RTC_MAGIC_VALUE) :
    (loadPersistentState (loadPersistentState s)).hourlyUV = (loadPersistentState s).hourlyUV ∧
    (loadPersistentState (loadPersistentState s)).forecastHours
      = (loadPersistentState s).forecastHours ∧
    (loadPersistentState (loadPersistentState s)).lastUpdateTimeStr
      = (loadPersistentState s).lastUpdateTimeStr ∧
    (loadPersistentState (loadPersistentState s)).locationDisplayStr
      = (loadPersistentState s).locationDisplayStr ∧
    (loadPersistentState (loadPersistentState s)).deviceLatitude
      = (loadPersistentState s).deviceLatitude ∧
    (loadPersistentState (loadPersistentState s)).deviceLongitude
      = (loadPersistentState s).deviceLongitude ∧
    (loadPersistentState (loadPersistentState s)).isLowPowerModeActive
      = (loadPersistentState s).isLowPowerModeActive ∧
    (loadPersistentState (loadPersistentState s)).useGpsFromSecrets
      = s.rtcUseGpsFromSecretsGlobal := by
  simp only [loadPersistentState, initializeForecastData]
  split_ifs <;> simp_all

/-- C6 counterexample: corrupting only the cookie (RTC preference cell
still reading true) makes the first load return `useGpsFromSecrets =
false` but the second load return `true` — the re-initialized store is
not stable in that field, and the default location-source preference is
NetworkGeolocated (false), not FixedCoordinates. -/
theorem claim6_counterexample :
    stateBadCookie.rtcMagicCookie ≠ RTC_MAGIC_VALUE ∧
    (loadPersistentState stateBadCookie).useGpsFromSecrets = false ∧
    (loadPersistentState (loadPersistentState stateBadCookie)).useGpsFromSecrets = true := by
  decide

/-- C6 (amended): (1) for every state with a valid forecast whose labels
fit the 15/31-character RTC buffers, save-then-load restores every
persisted field; (2) on cookie mismatch, load returns the documented
defaults — sentinel forecast, "Never" label, the fixed secrets
coordinates — but with location-source preference NetworkGeolocated
(`useGpsFromSecrets = false`), and re-initializes the store so that a
second load is stable on every field except the location-source
preference, which is re-read from the RTC cell the mismatch path never
rewrites. -/
theorem claim6_roundtrip_and_mismatch (s : DeviceState) :
    (s.rtcHasValidData = true → s.lastUpdateTimeStr.length ≤ 15 →
      s.locationDisplayStr.length ≤ 31 →
      (loadPersistentState (savePersistentState s)).hourlyUV = s.hourlyUV ∧
      (loadPersistentState (savePersistentState s)).forecastHours = s.forecastHours ∧
      (loadPersistentState (savePersistentState s)).lastUpdateTimeStr = s.lastUpdateTimeStr ∧
      (loadPersistentState (savePersistentState s)).locationDisplayStr = s.locationDisplayStr ∧
      (loadPersistentState (savePersistentState s)).deviceLatitude = s.deviceLatitude ∧
      (loadPersistentState (savePersistentState s)).deviceLongitude = s.deviceLongitude ∧
      (loadPersistentState (savePersistentState s)).useGpsFromSecrets = s.useGpsFromSecrets ∧
      (loadPersistentState (savePersistentState s)).isLowPowerModeActive
        = s.isLowPowerModeActive) ∧
    (s.rtcMagicCookie ≠ RTC_MAGIC_VALUE →
      ((loadPersistentState s).hourlyUV = List.replicate HOURLY_FORECAST_COUNT (-1) ∧
       (loadPersistentState s).forecastHours = List.replicate HOURLY_FORECAST_COUNT (-1) ∧
       (loadPersistentState s).lastUpdateTimeStr = "Never" ∧
       (loadPersistentState s).locationDisplayStr = "Initializing..." ∧
       (loadPersistentState s).deviceLatitude = MY_LATITUDE ∧
       (loadPersistentState s).deviceLongitude = MY_LONGITUDE ∧
       (loadPersistentState s).useGpsFromSecrets = false ∧
       (loadPersistentState s).rtcMagicCookie = RTC_MAGIC_VALUE ∧
       (loadPersistentState s).rtcHasValidData = false) ∧
      ((loadPersistentState (loadPersistentState s)).hourlyUV = (loadPersistentState s).hourlyUV ∧
       (loadPersistentState (loadPersistentState s)).lastUpdateTimeStr
         = (loadPersistentState s).lastUpdateTimeStr ∧
       (loadPersistentState (loadPersistentState s)).locationDisplayStr
         = (loadPersistentState s).locationDisplayStr ∧
       (loadPersistentState (loadPersistentState s)).deviceLatitude
         = (loadPersistentState s).deviceLatitude ∧
       (loadPersistentState (loadPersistentState s)).isLowPowerModeActive
         = (loadPersistentState s).isLowPowerModeActive ∧
       (loadPersistentState (loadPersistentState s)).useGpsFromSecrets
         = s.rtcUseGpsFromSecretsGlobal)) :=
  ⟨fun h hl1 hl2 => roundtrip_restores s h hl1 hl2,
   fun hm => ⟨load_mismatch_defaults s hm,
     (load_mismatch_stability s hm).1,
     (load_mismatch_stability s hm).2.2.1,
     (load_mismatch_stability s hm).2.2.2.1,
     (load_mismatch_stability s hm).2.2.2.2.1,
     (load_mismatch_stability s hm).2.2.2.2.2.2.1,
     (load_mismatch_stability s hm).2.2.2.2.2.2.2⟩⟩

/-- Witness for C6: the round-trip part at the concrete example state and
the mismatch part at the corrupted-cookie state. -/
theorem claim6_roundtrip_and_mismatch_witness :
    (loadPersistentState (savePersistentState exampleState)).hourlyUV = exampleState.hourlyUV ∧
    (loadPersistentState stateBadCookie).lastUpdateTimeStr = "Never" :=
  ⟨((claim6_roundtrip_and_mismatch exampleState).1 (by decide) (by decide) (by decide)).1,
   (((claim6_roundtrip_and_mismatch stateBadCookie).2 (by decide)).1).2.2.1⟩

/-! ## Claim C7: button gesture classification -/

/-- C7: on periodic 50 ms ticks, a press released 300 ms after the
debounced falling edge produces exactly one short-press event and no
long-press event; a press held for 1500 ms produces exactly one
long-press event (fired while still held) and no further event on the
release; and in general, once the long press has fired, further ticks
that still sample the input low emit nothing. -/
theorem claim7_button_classification :
    (runButton initialButtonState ticksShortPress).2 = [ButtonEventKind.short] ∧
    (runButton initialButtonState ticksLongPress).2 = [ButtonEventKind.long] ∧
    (∀ bs now lvl, bs.isHeld = true → bs.lastStateHigh = false → lvl = false →
      (buttonStep bs now lvl).2 = none ∧ (buttonStep bs now lvl).1.isHeld = true) := by
  refine ⟨by decide, by decide, ?_⟩
  intro bs now lvl h1 h2 h3
  simp [buttonStep, h1, h2, h3]

/-- Witness for C7: the held-low no-repeat property at a concrete held
classifier state. -/
theorem claim7_button_classification_witness :
    (buttonStep heldButtonState 1300 false).2 = none ∧
    (buttonStep heldButtonState 1300 false).1.isHeld = true :=
  claim7_button_classification.2.2 heldButtonState 1300 false rfl rfl rfl

/-! ## Claim C4: sleeping-mode schedule correctness

General lemmas about the candidate scan of `calculateNextUpdateTimeDetails`
in sleeping mode (`isNormalModeCheck = false`): the scan is a minimum
accumulation over the candidate instants `hour + off : targetMinute +
i*interval` for `off ∈ {0,1}`, `i < updatesPerHour`. -/

theorem scanFold_cons (now : Nat) (b : Bool) (iv : Nat) (c : Nat → Nat) (a : Nat) (l : List Nat)
    (st : Nat × Bool) :
    scanFold now b iv c (a :: l) st = scanFold now b iv c l (scanStep now b iv (c a) st) := rfl

theorem scanStep_false_eq (now iv cand : Nat) (st : Nat × Bool) :
    scanStep now false iv cand st =
      if now < cand then (if st.1 = 0 ∨ cand < st.1 then (cand, st.2) else st) else st := by
  unfold scanStep
  split_ifs <;> simp_all

theorem scanFold_snd (now iv : Nat) (c : Nat → Nat) (l : List Nat) (st : Nat × Bool) :
    (scanFold now false iv c l st).2 = st.2 := by
  induction l generalizing st with
  | nil => rfl
  | cons a l ih =>
      rw [scanFold_cons, ih, scanStep_false_eq]
      split_ifs <;> rfl

theorem scanFold_mem (now iv : Nat) (c : Nat → Nat) (l : List Nat) (st : Nat × Bool) :
    (scanFold now false iv c l st).1 = st.1 ∨
      ∃ i ∈ l, (scanFold now false iv c l st).1 = c i ∧ now < c i := by
  induction l generalizing st with
  | nil => exact Or.inl rfl
  | cons a l ih =>
      rw [scanFold_cons, scanStep_false_eq]
      by_cases h1 : now < c a
      · rw [if_pos h1]
        by_cases h2 : st.1 = 0 ∨ c a < st.1
        · rw [if_pos h2]
          rcases ih (c a, st.2) with h | ⟨i, hi, he, hlt⟩
          · exact Or.inr ⟨a, by simp, h, h1⟩
          · exact Or.inr ⟨i, by simp [hi], he, hlt⟩
        · rw [if_neg h2]
          rcases ih st with h | ⟨i, hi, he, hlt⟩
          · exact Or.inl h
          · exact Or.inr ⟨i, by simp [hi], he, hlt⟩
      · rw [if_neg h1]
        rcases ih st with h | ⟨i, hi, he, hlt⟩
        · exact Or.inl h
        · exact Or.inr ⟨i, by simp [hi], he, hlt⟩

theorem scanFold_le (now iv : Nat) (c : Nat → Nat) (l : List Nat) (st : Nat × Bool)
    (h : st.1 ≠ 0) :
    (scanFold now false iv c l st).1 ≠ 0 ∧ (scanFold now false iv c l st).1 ≤ st.1 := by
  induction l generalizing st with
  | nil => exact ⟨h, le_refl _⟩
  | cons a l ih =>
      rw [scanFold_cons, scanStep_false_eq]
      by_cases h1 : now < c a
      · rw [if_pos h1]
        by_cases h2 : st.1 = 0 ∨ c a < st.1
        · rw [if_pos h2]
          rcases h2 with h2 | h2
          · exact absurd h2 h
          · obtain ⟨hne, hle⟩ := ih (c a, st.2) (by simp; omega)
            exact ⟨hne, le_trans hle (le_of_lt h2)⟩
        · rw [if_neg h2]
          exact ih st h
      · rw [if_neg h1]
        exact ih st h

theorem scanFold_min (now iv : Nat) (c : Nat → Nat) (l : List Nat) (st : Nat × Bool) :
    ∀ j ∈ l, now < c j →
      (scanFold now false iv c l st).1 ≠ 0 ∧ (scanFold now false iv c l st).1 ≤ c j := by
  induction l generalizing st with
  | nil => intro j hj _; exact absurd hj (by simp)
  | cons a l ih =>
      intro j hj hlt
      rcases List.mem_cons.mp hj with rfl | hj'
      · rw [scanFold_cons, scanStep_false_eq]
        by_cases h1 : now < c j
        · rw [if_pos h1]
          by_cases h2 : st.1 = 0 ∨ c j < st.1
          · rw [if_pos h2]
            exact scanFold_le now iv c l (c j, st.2) (by simp; omega)
          · rw [if_neg h2]
            push_neg at h2
            obtain ⟨hne, hle⟩ := scanFold_le now iv c l st h2.1
            exact ⟨hne, le_trans hle h2.2⟩
        · exact absurd hlt h1
      · rw [scanFold_cons]
        exact ih (scanStep now false iv (c a) st) j hj' hlt

theorem candEpoch_arith (t : Tm) (tm iv off i : Nat) :
    candEpoch t tm iv off i = t.day*86400 + t.hour*3600 + off*3600 + (tm + i*iv)*60 := by
  unfold candEpoch mkEpoch; ring

theorem epoch_arith (t : Tm) : t.epoch = t.day*86400 + t.hour*3600 + t.min*60 + t.sec := by
  unfold Tm.epoch mkEpoch; ring

/-- Characterization of the 2-hour candidate scan in sleeping mode: the
`updateNow` flag stays clear, and the scan yields a strictly future
candidate that is minimal among all future candidates. -/
theorem scanSlots_sleep_spec (t : Tm) (tm iv uph : Nat)
    (hm : t.min < 60) (hs : t.sec < 60)
    (hiv : 1 ≤ iv) (hivu : iv * uph ≤ 60) (hu : 1 ≤ uph) :
    (scanSlots t t.epoch tm iv uph false).2 = false ∧
    t.epoch < (scanSlots t t.epoch tm iv uph false).1 ∧
    (∃ off, off ≤ 1 ∧ ∃ i, i < uph ∧
        (scanSlots t t.epoch tm iv uph false).1 = candEpoch t tm iv off i) ∧
    (∀ off, off ≤ 1 → ∀ i, i < uph → t.epoch < candEpoch t tm iv off i →
        (scanSlots t t.epoch tm iv uph false).1 ≤ candEpoch t tm iv off i) := by
  have hivu' : uph * iv ≤ 60 := by rw [Nat.mul_comm]; exact hivu
  unfold scanSlots scanHour
  have hsnd0 : (scanFold t.epoch false iv (candEpoch t tm iv 0) (List.range uph) (0, false)).2
      = false := scanFold_snd _ _ _ _ _
  by_cases h0 : (scanFold t.epoch false iv (candEpoch t tm iv 0) (List.range uph) (0, false)).1 = 0
  · -- no same-hour candidate is in the future: the second pass decides
    rw [if_neg (by simp [h0]), if_neg (by simp [h0])]
    have hs0 : (scanFold t.epoch false iv (candEpoch t tm iv 0) (List.range uph) (0, false))
        = (0, false) := Prod.ext_iff.mpr ⟨h0, hsnd0⟩
    rw [hs0]
    have hc10 : t.epoch < candEpoch t tm iv 1 0 := by
      rw [epoch_arith, candEpoch_arith]; omega
    have hmin := scanFold_min t.epoch iv (candEpoch t tm iv 1) (List.range uph) (0, false)
    have h00 := hmin 0 (List.mem_range.mpr hu) hc10
    refine ⟨scanFold_snd _ _ _ _ _, ?_, ?_, ?_⟩
    · rcases scanFold_mem t.epoch iv (candEpoch t tm iv 1) (List.range uph) (0, false) with
        h | ⟨i, hi, he, hlt⟩
      · exact absurd h h00.1
      · rw [he]; exact hlt
    · rcases scanFold_mem t.epoch iv (candEpoch t tm iv 1) (List.range uph) (0, false) with
        h | ⟨i, hi, he, hlt⟩
      · exact absurd h h00.1
      · exact ⟨1, le_refl 1, i, List.mem_range.mp hi, he⟩
    · intro off hoff i hi hlt
      interval_cases off
      · exact absurd (scanFold_min t.epoch iv (candEpoch t tm iv 0) (List.range uph) (0, false)
          i (List.mem_range.mpr hi) hlt).1 (by simp [h0])
      · exact (hmin i (List.mem_range.mpr hi) hlt).2
  · -- a same-hour candidate was found; the search breaks after the first pass
    rw [if_pos ⟨h0, hsnd0⟩]
    have hmin := scanFold_min t.epoch iv (candEpoch t tm iv 0) (List.range uph) (0, false)
    obtain ⟨i0, hi0, he0, hlt0⟩ :
        ∃ i, i < uph ∧ (scanFold t.epoch false iv (candEpoch t tm iv 0)
          (List.range uph) (0, false)).1 = candEpoch t tm iv 0 i ∧
          t.epoch < candEpoch t tm iv 0 i := by
      rcases scanFold_mem t.epoch iv (candEpoch t tm iv 0) (List.range uph) (0, false) with
        h | ⟨i, hi, he, hlt⟩
      · exact absurd h h0
      · exact ⟨i, List.mem_range.mp hi, he, hlt⟩
    refine ⟨hsnd0, ?_, ⟨0, by omega, i0, hi0, he0⟩, ?_⟩
    · rw [he0]; exact hlt0
    · intro off hoff i hi hlt
      interval_cases off
      · exact (hmin i (List.mem_range.mpr hi) hlt).2
      · -- every first-pass candidate is below every second-pass candidate
        rw [he0]
        have hp : i0 * iv + iv ≤ uph * iv := by
          have := Nat.mul_le_mul_right iv (Nat.succ_le_of_lt hi0)
          rwa [Nat.succ_mul] at this
        rw [candEpoch_arith, candEpoch_arith]
        omega

/-- In sleeping mode, for in-range parameters, the function returns the
scanned minimum as the next update instant and converts the gap to
microseconds; the zero-sleep sanity check and the 3-hour cap never fire. -/
theorem calc_sleep_eq (t : Tm) (uph tm : Nat)
    (hm : t.min < 60) (hs : t.sec < 60) (hu1 : 1 ≤ uph) (hu2 : uph ≤ 60) (htm : tm ≤ 59) :
    calculateNextUpdateTimeDetails t uph tm false =
      { sleepDurationUs := ((scanSlots t t.epoch tm (60/uph) uph false).1 - t.epoch) * 1000000,
        nextUpdateEpoch := (scanSlots t t.epoch tm (60/uph) uph false).1,
        updateNow := false } := by
  have hiv : 1 ≤ 60 / uph := Nat.div_pos hu2 (by omega)
  have hivu : (60 / uph) * uph ≤ 60 := Nat.div_mul_le_self 60 uph
  obtain ⟨hsnd, hlt, hmem, hmin⟩ := scanSlots_sleep_spec t tm (60/uph) uph hm hs hiv hivu hu1
  have hub : (scanSlots t t.epoch tm (60/uph) uph false).1 - t.epoch ≤ 10680 := by
    obtain ⟨off, hoff, i, hi, he⟩ := hmem
    have hp : i * (60/uph) + (60/uph) ≤ uph * (60/uph) := by
      have := Nat.mul_le_mul_right (60/uph) (Nat.succ_le_of_lt hi)
      rwa [Nat.succ_mul] at this
    have hivu' : uph * (60/uph) ≤ 60 := by rw [Nat.mul_comm]; exact hivu
    rw [he, candEpoch_arith, epoch_arith]
    omega
  have hcu : clampUpdatesPerHour uph = uph := by
    unfold clampUpdatesPerHour; rw [if_neg]; omega
  have hct : clampTargetStartMinute tm = tm := by
    unfold clampTargetStartMinute; rw [if_neg]; omega
  simp only [calculateNextUpdateTimeDetails, hcu, hct]
  rw [if_neg (by simp [hsnd])]
  rw [if_pos (show (scanSlots t t.epoch tm (60/uph) uph false).1 ≠ 0 by omega)]
  simp only []
  rw [if_neg (Nat.mul_ne_zero (by omega) (by decide))]
  rw [if_neg (by
    rintro ⟨-, hbig⟩
    have hle : ((scanSlots t t.epoch tm (60/uph) uph false).1 - t.epoch) * 1000000
        ≤ 10680 * 1000000 := Nat.mul_le_mul_right _ hub
    omega)]
  rw [hsnd]

theorem minuteOfHour_cand (t : Tm) (tm iv off i : Nat) :
    minuteOfHour (candEpoch t tm iv off i) = (tm + i * iv) % 60 := by
  unfold minuteOfHour candEpoch mkEpoch
  omega

/-- When the target minute is below the interval, the scanned candidates
cover every grid instant in the window, so the scan minimum is below
every future instant whose minute-of-hour is congruent to the target. -/
theorem grid_min (t : Tm) (tm iv uph : Nat)
    (hm : t.min < 60) (hs : t.sec < 60) (htm : tm ≤ 59)
    (hexact : iv * uph = 60) (hu : 1 ≤ uph) (htmiv : tm < iv)
    (F : Nat)
    (hmin : ∀ off, off ≤ 1 → ∀ i, i < uph → t.epoch < candEpoch t tm iv off i →
        F ≤ candEpoch t tm iv off i)
    (e : Nat) (he : e % 60 = 0) (hcong : (e / 60) % 60 % iv = tm % iv)
    (hlt : t.epoch < e) : F ≤ e := by
  have hiv : 1 ≤ iv := by
    rcases Nat.eq_zero_or_pos iv with h | h
    · omega
    · exact h
  have hC : t.epoch < candEpoch t tm iv 1 0 := by rw [epoch_arith, candEpoch_arith]; omega
  have hFC : F ≤ candEpoch t tm iv 1 0 := hmin 1 (le_refl 1) 0 hu hC
  by_cases hce : candEpoch t tm iv 1 0 ≤ e
  · omega
  · push_neg at hce
    have heM : e = (e / 60) * 60 := by omega
    have hlow : t.day*1440 + t.hour*60 < e / 60 := by
      rw [epoch_arith] at hlt; omega
    have hhigh : e / 60 < t.day*1440 + t.hour*60 + 60 + tm := by
      rw [candEpoch_arith] at hce; omega
    by_cases hD60 : e / 60 - (t.day*1440 + t.hour*60) < 60
    · -- e lies within the current hour: it is a first-pass candidate
      have hM60 : (e / 60) % 60 = e / 60 - (t.day*1440 + t.hour*60) := by omega
      rw [hM60, Nat.mod_eq_of_lt htmiv] at hcong
      have hDk : e / 60 - (t.day*1440 + t.hour*60)
          = iv * ((e / 60 - (t.day*1440 + t.hour*60)) / iv) + tm := by
        conv_lhs => rw [← Nat.div_add_mod (e / 60 - (t.day*1440 + t.hour*60)) iv]
        rw [hcong]
      have hk : (e / 60 - (t.day*1440 + t.hour*60)) / iv < uph := by
        have h1 : iv * ((e / 60 - (t.day*1440 + t.hour*60)) / iv) < iv * uph := by omega
        exact Nat.lt_of_mul_lt_mul_left h1
      have hecand : e = candEpoch t tm iv 0 ((e / 60 - (t.day*1440 + t.hour*60)) / iv) := by
        rw [candEpoch_arith]
        have hDk' := hDk
        rw [Nat.mul_comm iv] at hDk'
        omega
      rw [hecand]
      exact hmin 0 (by omega) _ hk (by rw [← hecand]; exact hlt)
    · -- e would be a next-hour instant before the target minute: impossible
      exfalso
      have hM60 : (e / 60) % 60 = e / 60 - (t.day*1440 + t.hour*60) - 60 := by omega
      rw [hM60, Nat.mod_eq_of_lt htmiv] at hcong
      have hsmall : e / 60 - (t.day*1440 + t.hour*60) - 60 < tm := by omega
      rw [Nat.mod_eq_of_lt (lt_trans hsmall htmiv)] at hcong
      omega

/-- C4 counterexample: at 14:05:00 with updatesPerHour = 4 and
targetStartMinute = 55 (interval 15 minutes), the sleeping-mode call
returns 14:55:00 (epoch 53700), yet 14:10:00 (epoch 51000) is a strictly
earlier instant on the claim's grid: its minute 10 is congruent to 55
modulo 15 and it lies strictly between now and the returned instant — so
the returned instant is not the smallest such grid instant. -/
theorem claim4_counterexample :
    (calculateNextUpdateTimeDetails ⟨0, 14, 5, 0⟩ 4 55 false).nextUpdateEpoch = 53700 ∧
    51000 % 60 = 0 ∧
    minuteOfHour 51000 % (60/4) = 55 % (60/4) ∧
    Tm.epoch ⟨0, 14, 5, 0⟩ < 51000 ∧ 51000 < 53700 := by
  decide

/-- C4 (amended): for every time with in-range minute and second, every
updatesPerHour in {1,2,4,6} and every targetStartMinute in [0,59], the
sleeping-mode call returns a `nextUpdateEpoch` strictly greater than now
whose minute-of-hour is congruent to the target minute modulo the
interval, which is the smallest of the scanned candidate instants
(hour + off, targetMinute + i*interval) that lie strictly in the future,
and `sleepDurationUs` equals the gap in microseconds.  When the target
minute is smaller than the interval the scanned candidates cover the
whole grid, so the result is the smallest grid instant strictly after
now; in particular at HH:58 with updatesPerHour = 4 and target minute 5
the next instant is (HH+1):05.  (For target minutes at or above the
interval the returned instant can be later than the smallest grid
instant, as the counterexample shows.) -/
theorem claim4_sleeping_mode_schedule (t : Tm) (uph tm : Nat)
    (hm : t.min < 60) (hs : t.sec < 60)
    (hu : uph = 1 ∨ uph = 2 ∨ uph = 4 ∨ uph = 6) (htm : tm < 60) :
    t.epoch < (calculateNextUpdateTimeDetails t uph tm false).nextUpdateEpoch ∧
    minuteOfHour (calculateNextUpdateTimeDetails t uph tm false).nextUpdateEpoch % (60/uph)
      = tm % (60/uph) ∧
    (∀ off, off ≤ 1 → ∀ i, i < uph →
       t.epoch < candEpoch t tm (60/uph) off i →
       (calculateNextUpdateTimeDetails t uph tm false).nextUpdateEpoch
         ≤ candEpoch t tm (60/uph) off i) ∧
    (calculateNextUpdateTimeDetails t uph tm false).sleepDurationUs
      = ((calculateNextUpdateTimeDetails t uph tm false).nextUpdateEpoch - t.epoch) * 1000000 ∧
    (tm < 60/uph → ∀ e, e % 60 = 0 → (e / 60) % 60 % (60/uph) = tm % (60/uph) →
       t.epoch < e →
       (calculateNextUpdateTimeDetails t uph tm false).nextUpdateEpoch ≤ e) ∧
    (t.min = 58 → t.sec = 0 → uph = 4 → tm = 5 →
       (calculateNextUpdateTimeDetails t uph tm false).nextUpdateEpoch
         = mkEpoch t.day (t.hour + 1) 5 0) := by
  have hu1 : 1 ≤ uph := by rcases hu with rfl | rfl | rfl | rfl <;> decide
  have hu2 : uph ≤ 60 := by rcases hu with rfl | rfl | rfl | rfl <;> decide
  have hdvd : (60/uph) ∣ 60 := by rcases hu with rfl | rfl | rfl | rfl <;> decide
  have hexact : (60/uph) * uph = 60 := by rcases hu with rfl | rfl | rfl | rfl <;> decide
  have heq := calc_sleep_eq t uph tm hm hs hu1 hu2 (by omega)
  obtain ⟨hsnd, hlt, hmem, hmin⟩ := scanSlots_sleep_spec t tm (60/uph) uph hm hs
    (Nat.div_pos hu2 (by omega)) (Nat.div_mul_le_self 60 uph) hu1
  rw [heq]
  refine ⟨hlt, ?_, hmin, rfl, ?_, ?_⟩
  · obtain ⟨off, hoff, i, hi, he⟩ := hmem
    rw [he, minuteOfHour_cand, Nat.mod_mod_of_dvd _ hdvd, Nat.add_mul_mod_self_right]
  · intro htmiv e he60 hcong hlte
    exact grid_min t tm (60/uph) uph hm hs (by omega) hexact hu1 htmiv _ hmin e he60 hcong hlte
  · intro h58 h0 hup4 htm5
    subst hup4
    subst htm5
    obtain ⟨off, hoff, i, hi, he⟩ := hmem
    interval_cases off
    · exfalso
      rw [he, candEpoch_arith] at hlt
      rw [epoch_arith] at hlt
      omega
    · have hC : t.epoch < candEpoch t 5 (60/4) 1 0 := by
        rw [epoch_arith, candEpoch_arith]; omega
      have h1 := hmin 1 (le_refl 1) 0 (by omega) hC
      rw [he] at h1 ⊢
      simp only [candEpoch_arith] at h1 ⊢
      unfold mkEpoch
      omega

/-- Witness for C4: the hour-rollover example at 14:58:00 with
updatesPerHour = 4 and target minute 5 yields 15:05:00. -/
theorem claim4_sleeping_mode_schedule_witness :
    (calculateNextUpdateTimeDetails ⟨0, 14, 58, 0⟩ 4 5 false).nextUpdateEpoch
      = mkEpoch 0 (14 + 1) 5 0 :=
  (claim4_sleeping_mode_schedule ⟨0, 14, 58, 0⟩ 4 5 (by decide) (by decide)
    (by decide) (by decide)).2.2.2.2.2 rfl rfl rfl rfl

end UVGrapher
